import Mathlib

/-!
Verification of the resilient outbound-request orchestrator of
`src/script.js` (HealthcareAssistant).

The JavaScript source is shallowly embedded: stateful objects become pure
functions over explicit state (lists of timestamps, the usage log, the
cascade controller's `retryCount`/`fallbackLevel` pair), JS numbers used
as integers become `Int`/`Nat`, and the floating-point ratio/average
comparisons become exact rational (`ℚ`) comparisons (for the bounded
integer inputs these heuristics see, IEEE doubles and exact rationals
decide the strict comparisons against `0.7` and `500` identically).
Timed waits are recorded as durations, not performed.  `Math.random()`
jitter is an explicit parameter.
-/

namespace HealthcareAssistant

/-- Structure of `API_CONFIG` from `src/script.js` lines 4–16 (numeric fields and the
fallback model list; `fallbackModel` is the legacy single-fallback field). -/
structure ApiConfig where
  maxRetries : Nat
  retryDelay : Nat
  maxRetryDelay : Nat
  rateLimitPerMinute : Nat
  rateLimitResetTime : Int
  fallbackModels : List String

def API_CONFIG : ApiConfig :=
  { maxRetries := 3
    retryDelay := 1000
    maxRetryDelay := 10000
    rateLimitPerMinute := 20
    rateLimitResetTime := 60000
    fallbackModels := ["gpt-4o-mini", "gpt-4o", "gpt-3.5-turbo"] }

/-! ## Admission controller (`apiRequestQueue`, lines 80–115)

The mutable field `requests : number[]` becomes an explicit
`List Int` of timestamps threaded through the operations. -/

/-- Embedding of `apiRequestQueue.cleanup(currentTime)` (lines 89–92):
`requests = requests.filter(t => t >= currentTime - rateLimitResetTime)`. -/
def cleanup (requests : List Int) (currentTime : Int) : List Int :=
  requests.filter (fun t => t ≥ currentTime - API_CONFIG.rateLimitResetTime)

/-- Embedding of `apiRequestQueue.addRequest()` (lines 83–87): push `now`, then purge. -/
def addRequest (requests : List Int) (now : Int) : List Int :=
  cleanup (requests ++ [now]) now

/-- Embedding of `apiRequestQueue.canMakeRequest()` (lines 95–99): purge, then compare the
retained count strictly against `rateLimitPerMinute`. -/
def canMakeRequest (requests : List Int) (now : Int) : Bool :=
  (cleanup requests now).length < API_CONFIG.rateLimitPerMinute

/-- Embedding of `apiRequestQueue.getWaitTime()` (lines 102–114). -/
def getWaitTime (requests : List Int) (now : Int) : Int :=
  if canMakeRequest requests now then 0
  else
    let purged := cleanup requests now
    match purged.head? with
    | none => 0
    | some oldestRequest =>
        max 0 (oldestRequest + API_CONFIG.rateLimitResetTime - now)

/-! ## Usage monitor (`apiUsageMonitor`, lines 18–78) -/

/-- One entry of `usageLog`, as built by `logApiCall` (lines 22–30).
The ISO timestamp string is embedded as its epoch-milliseconds value
(the anomaly check converts it right back with `new Date(...).getTime()`). -/
structure LogEntry where
  timestamp : Int
  endpoint : String
  model : String
  success : Bool
  errorCode : Option Int
deriving DecidableEq

/-- Value of `apiUsageMonitor.maxLogSize` (line 20). -/
def maxLogSize : Nat := 100

/-- The log update inside `logApiCall` (lines 32–35): `unshift` the new
entry, then `pop` the last (oldest) entry when the capacity is exceeded. -/
def logApiCallLog (log : List LogEntry) (entry : LogEntry) : List LogEntry :=
  let l := entry :: log
  if l.length > maxLogSize then l.dropLast else l

/-- Embedding of `apiUsageMonitor.checkForSuspiciousActivity()` (lines 42–62), returning
the pair (high-failure-rate signal, rapid-calls signal) that the source
reports via `console.warn`.  The float comparisons are exact over ℚ. -/
def checkForSuspiciousActivity (log : List LogEntry) : Bool × Bool :=
  let recentCalls := log.take 20
  let failedCalls := recentCalls.filter (fun call => !call.success)
  let failureSignal :=
    decide (recentCalls.length ≥ 5) &&
      decide ((failedCalls.length : ℚ) / (recentCalls.length : ℚ) > 0.7)
  let timestamps := recentCalls.map (·.timestamp)
  let timeDiffs : List Int := List.zipWith (fun a b => a - b) timestamps timestamps.tail
  let avgTimeBetweenCalls : ℚ := (timeDiffs.sum : ℚ) / (timeDiffs.length : ℚ)
  let rapidSignal :=
    decide (recentCalls.length ≥ 5) && decide (avgTimeBetweenCalls < 500)
  (failureSignal, rapidSignal)

/-- Embedding of `apiUsageMonitor.logApiCall` (lines 22–40): the new log together with the
advisory signals computed on it.  The signals feed only `console.warn`; the
returned log is `logApiCallLog log entry` whatever their values. -/
def logApiCall (log : List LogEntry) (entry : LogEntry) :
    List LogEntry × (Bool × Bool) :=
  let l := logApiCallLog log entry
  (l, checkForSuspiciousActivity l)

/-- Result shape of `getUsageStats` (lines 64–77): `successRate` is the
percentage `(success / total * 100)` as an exact rational; the source
formats it with `.toFixed(1) + '%'`, a rendering detail abstracted here.
It is `none` exactly when the source's early return (line 65) omits the
field. -/
structure UsageStats where
  total : Nat
  success : Nat
  failure : Nat
  successRate : Option ℚ
deriving DecidableEq

/-- Embedding of `apiUsageMonitor.getUsageStats()` (lines 64–77).  The empty log takes
the early return `{ total: 0, success: 0, failure: 0 }` with no
`successRate` field. -/
def getUsageStats (log : List LogEntry) : UsageStats :=
  if log.length = 0 then ⟨0, 0, 0, none⟩
  else
    let total := log.length
    let success := (log.filter (·.success)).length
    let failure := total - success
    ⟨total, success, failure, some ((success : ℚ) / (total : ℚ) * 100)⟩

/-! ## Backoff policy and fallback cascade controller
(`getRetryDelay` lines 123–130, `makeApiRequestWithMultiFallback`
lines 133–281)

The `while (true)` loop is embedded as a step function on the loop's
mutable state `(retryCount, fallbackLevel)`.  One step is one physical
attempt that *failed* (the `catch` block, lines 219–279); a successful
attempt returns from the loop, so the claims about always-failing calls
quantify over failure steps only.  `error.message.includes('429')` is the
substring test on the thrown message.  Timed waits (`await wait(...)`)
are recorded in the step output; `Math.random() * 1000` is the `jitter`
parameter. -/

/-- JavaScript `String.prototype.includes`: substring containment. -/
def includesStr (sub s : String) : Bool :=
  decide (sub.data <:+: s.data)

/-- Embedding of `getRetryDelay(retryCount)` (lines 123–130):
`min(maxRetryDelay, retryDelay * 2^retryCount) + Math.random() * 1000`,
with the random jitter made an explicit parameter. -/
def getRetryDelay (retryCount : Nat) (jitter : ℚ) : ℚ :=
  min (API_CONFIG.maxRetryDelay : ℚ) ((API_CONFIG.retryDelay : ℚ) * 2 ^ retryCount) + jitter

/-- The loop-local mutable state of `makeApiRequestWithMultiFallback`
(lines 134–135): `retryCount` starts at 0 and `fallbackLevel` at `-1`
(primary). -/
structure CascadeState where
  retryCount : Nat
  fallbackLevel : Int
deriving DecidableEq

/-- Initial state on entry to the loop (lines 134–135). -/
def initialCascadeState : CascadeState := ⟨0, -1⟩

/-- The terminal message thrown at line 277 when the final retry check
`retryCount >= maxRetries && fallbackLevel >= fallbackModels.length - 1`
fires. -/
def failedAfterMsg (errMsg : String) : String :=
  "Failed after " ++ toString API_CONFIG.maxRetries ++
    " retry attempts on all models: " ++ errMsg

/-- The terminal message thrown at line 271 when no retry and no further
fallback target remains inside the `else` chain. -/
def allExhaustedMsg (errMsg : String) : String :=
  "All fallback options exhausted. Last error: " ++ errMsg

/-- Observable outcome of one failed attempt: the next loop state or the
thrown terminal message, whether `createFallbackCall` was invoked (and for
which level), and the total duration of the `await wait(...)` calls. -/
structure StepOutcome where
  next : CascadeState ⊕ String
  factoryCalledAt : Option Int
  waited : ℚ
deriving DecidableEq

/-- The `catch` block of `makeApiRequestWithMultiFallback` (lines 219–279)
for a failed attempt with error message `errMsg`:
* message contains `'429'` (line 240): wait `5000 + getRetryDelay(retryCount)`,
  increment `retryCount`, keep the tier and do not call the factory;
* otherwise `retryCount < maxRetries` (line 248): wait the backoff, increment;
* otherwise a further fallback model exists (line 256): reset `retryCount`,
  advance `fallbackLevel`, obtain a fresh call from `createFallbackCall`;
* otherwise (line 270): throw `allExhaustedMsg`.
In the non-throwing branches the final check at line 276 throws
`failedAfterMsg` when `retryCount >= maxRetries` and `fallbackLevel` is
already the last tier. -/
def cascadeStep (jitter : ℚ) (s : CascadeState) (errMsg : String) : StepOutcome :=
  let lastTier : Int := (API_CONFIG.fallbackModels.length : Int) - 1
  if includesStr "429" errMsg then
    let s' : CascadeState := ⟨s.retryCount + 1, s.fallbackLevel⟩
    let w : ℚ := 5000 + getRetryDelay s.retryCount jitter
    if s'.retryCount ≥ API_CONFIG.maxRetries ∧ s'.fallbackLevel ≥ lastTier then
      ⟨Sum.inr (failedAfterMsg errMsg), none, w⟩
    else
      ⟨Sum.inl s', none, w⟩
  else if s.retryCount < API_CONFIG.maxRetries then
    let s' : CascadeState := ⟨s.retryCount + 1, s.fallbackLevel⟩
    let w : ℚ := getRetryDelay s.retryCount jitter
    if s'.retryCount ≥ API_CONFIG.maxRetries ∧ s'.fallbackLevel ≥ lastTier then
      ⟨Sum.inr (failedAfterMsg errMsg), none, w⟩
    else
      ⟨Sum.inl s', none, w⟩
  else if s.fallbackLevel < lastTier then
    let s' : CascadeState := ⟨0, s.fallbackLevel + 1⟩
    ⟨Sum.inl s', some s'.fallbackLevel, 0⟩
  else
    ⟨Sum.inr (allExhaustedMsg errMsg), none, 0⟩

/-- The loop run from state `s0` through `n` failed attempts that all throw
the same message `errMsg` (e.g. an executable call failing identically each
time).  `Sum.inr` is a thrown terminal failure; once terminal it stays
terminal (the loop has exited). -/
def cascadeRunFrom (jitter : ℚ) (errMsg : String) (s0 : CascadeState) :
    Nat → CascadeState ⊕ String
  | 0 => Sum.inl s0
  | n + 1 =>
      match cascadeRunFrom jitter errMsg s0 n with
      | Sum.inl s => (cascadeStep jitter s errMsg).next
      | Sum.inr m => Sum.inr m

/-- The loop run from the initial state (primary target, zero retries). -/
def cascadeRun (jitter : ℚ) (errMsg : String) (n : Nat) : CascadeState ⊕ String :=
  cascadeRunFrom jitter errMsg initialCascadeState n

/-! ## Streaming decoder (`streamingApiCall`, lines 1185–1275)

The read loop (lines 1215–1272) is embedded over the list of decoded text
chunks the `reader` delivers.  Each chunk is split on `'\n'` and filtered
(line 1227) with **no carry-over of a trailing partial line between
chunks** — exactly as the source does.  `JSON.parse` followed by
`json.choices[0]?.delta?.content || ''` is modelled by
`parseDeltaContent`: on the single frame shape the wire protocol uses it
returns the content, and `none` covers every path that leaves the
transcript unchanged (a `JSON.parse` throw caught at line 1267, or a
parsed object without a content delta). -/

/-- JavaScript `chunk.split('\n')` over the chunk's characters:
`"a\nb" ↦ ["a","b"]`, a trailing newline yields a trailing empty piece,
and the empty string yields one empty piece. -/
def splitLines : List Char → List (List Char)
  | [] => [[]]
  | c :: rest =>
      match splitLines rest with
      | [] => [[]]
      | l :: ls => if c = '\n' then [] :: l :: ls else (c :: l) :: ls

/-- JavaScript `String.prototype.trim()`: strip leading and trailing
whitespace. -/
def trimChars (cs : List Char) : List Char :=
  ((cs.dropWhile Char.isWhitespace).reverse.dropWhile Char.isWhitespace).reverse

/-- Embedding of `JSON.parse(jsonString)` plus the extraction
`json.choices[0]?.delta?.content || ''` (lines 1241–1244), modelled for the
frame shape `{"choices":[{"delta":{"content":"<text>"}}]}` carried by the
stream; any other payload is `none` (skipped without changing the
transcript: a `JSON.parse` throw caught at line 1267, or a parsed object
without a content delta, line 1244). -/
def parseDeltaContent (cs : List Char) : Option (List Char) :=
  let pre := "\x7b\"choices\":[\x7b\"delta\":\x7b\"content\":\"".data
  let post := "\"\x7d\x7d]\x7d".data
  if pre.isPrefixOf cs ∧ post.isSuffixOf cs ∧ pre.length + post.length ≤ cs.length then
    some ((cs.drop pre.length).take (cs.length - pre.length - post.length))
  else
    none

/-- The body of `for (const line of lines)` (lines 1230–1271) acting on the
accumulated `streamedContent`:
* a line containing `[DONE]` is skipped with `continue` (line 1232);
* the leading `data: ` marker, if present, is stripped and the payload
  trimmed (line 1235); an empty payload is skipped (line 1237);
* a parsed content delta is appended (line 1247); a malformed payload is
  skipped with a warning (lines 1267–1270). -/
def processLine (streamedContent : String) (line : String) : String :=
  if includesStr "[DONE]" line then streamedContent
  else
    let jsonString :=
      trimChars (if "data: ".data.isPrefixOf line.data then line.data.drop 6 else line.data)
    if jsonString = [] then streamedContent
    else
      match parseDeltaContent jsonString with
      | some contentDelta => streamedContent ++ String.mk contentDelta
      | none => streamedContent

/-- One iteration of the read loop (lines 1215–1272): split the chunk on
newlines (with **no carried-over remainder from the previous chunk**, as in
the source), drop blank lines, process each line in order. -/
def processChunk (streamedContent : String) (chunk : String) : String :=
  let lines := (splitLines chunk.data).filter (fun line => trimChars line ≠ [])
  lines.foldl (fun acc line => processLine acc (String.mk line)) streamedContent

/-- The whole read loop over the sequence of chunks the reader delivers,
returning the final `streamedContent` (line 1274). -/
def decodeChunks (chunks : List String) : String :=
  chunks.foldl processChunk ""

/-! ## Derived and demonstration values -/

/-- Mean absolute time delta between consecutive calls, the quantity the
specification's cadence heuristic describes.  The source computes the raw
differences `timestamps[i-1] - timestamps[i]`; on a newest-first log the
two agree. -/
def meanAbsGap (recent : List LogEntry) : ℚ :=
  let ts := recent.map (·.timestamp)
  let ds : List Int := List.zipWith (fun a b => |a - b|) ts ts.tail
  (ds.sum : ℚ) / (ds.length : ℚ)

/-- A non-rate-limit error message, as thrown by the non-streaming
`fetch` wrapper (`API request failed: <status> ...`). -/
def alwaysFailMsg : String := "API request failed: 500 Internal Server Error"

/-- A rate-limit error message (contains `429`). -/
def rateLimitMsg : String := "API request failed: 429 Too Many Requests"

/-- One complete server-sent-event frame carrying the delta `"Hello"`,
newline-terminated. -/
def sseFrame : String :=
  "data: \x7b\"choices\":[\x7b\"delta\":\x7b\"content\":\"Hello\"\x7d\x7d]\x7d\n"

/-- The first 20 bytes of `sseFrame`: a mid-frame split point inside the
JSON payload. -/
def sseFrameA : String := "data: \x7b\"choices\":[\x7b\""

/-- The remaining bytes of `sseFrame` after the mid-frame split. -/
def sseFrameB : String := "delta\":\x7b\"content\":\"Hello\"\x7d\x7d]\x7d\n"

/-- A sample usage-log entry. -/
def demoEntry : LogEntry := ⟨1000, "chat", "gpt-4o-mini", true, none⟩

/-- A sample five-entry usage log, newest first, with four failures and a
one-second cadence. -/
def c8DemoLog : List LogEntry :=
  [⟨4000, "chat", "m", false, some 500⟩,
   ⟨3000, "chat", "m", false, some 500⟩,
   ⟨2000, "chat", "m", false, some 500⟩,
   ⟨1000, "chat", "m", false, some 500⟩,
   ⟨0, "chat", "m", true, none⟩]

/-! ## Helper lemmas -/

lemma cascadeRunFrom_succ (j : ℚ) (m : String) (s0 : CascadeState) (n : Nat) :
    cascadeRunFrom j m s0 (n + 1) =
      match cascadeRunFrom j m s0 n with
      | Sum.inl s => (cascadeStep j s m).next
      | Sum.inr t => Sum.inr t := rfl

lemma cascadeRun_succ (j : ℚ) (m : String) (n : Nat) :
    cascadeRun j m (n + 1) =
      match cascadeRun j m n with
      | Sum.inl s => (cascadeStep j s m).next
      | Sum.inr t => Sum.inr t := rfl

lemma cascadeStep_retry (j : ℚ) (m : String) (h : includesStr "429" m = false)
    {r : Nat} {l : Int} (hr : r < 3) (hno : ¬(3 ≤ r + 1 ∧ 2 ≤ l)) :
    (cascadeStep j ⟨r, l⟩ m).next = Sum.inl ⟨r + 1, l⟩ := by
  simp only [cascadeStep, API_CONFIG, h, Bool.false_eq_true, if_false]
  rw [if_pos hr, if_neg (by simp only [List.length_cons, List.length_nil]; push_cast; omega)]

lemma cascadeStep_advance (j : ℚ) (m : String) (h : includesStr "429" m = false)
    {l : Int} (hl : l < 2) :
    (cascadeStep j ⟨API_CONFIG.maxRetries, l⟩ m).next = Sum.inl ⟨0, l + 1⟩ := by
  simp only [cascadeStep, API_CONFIG, h, Bool.false_eq_true, if_false]
  rw [if_neg (by omega), if_pos (by simp only [List.length_cons, List.length_nil]; push_cast; omega)]

lemma cascadeStep_exhaust (j : ℚ) (m : String) (h : includesStr "429" m = false) :
    (cascadeStep j ⟨2, 2⟩ m).next = Sum.inr (failedAfterMsg m) := by
  simp only [cascadeStep, API_CONFIG, h, Bool.false_eq_true, if_false]
  rw [if_pos (by omega), if_pos (by norm_num)]

lemma cascadeStep_429 (j : ℚ) (m : String) (h : includesStr "429" m = true)
    {r : Nat} {l : Int} (hno : ¬(3 ≤ r + 1 ∧ 2 ≤ l)) :
    (cascadeStep j ⟨r, l⟩ m).next = Sum.inl ⟨r + 1, l⟩ := by
  simp only [cascadeStep, API_CONFIG, h, if_true]
  rw [if_neg (by simp only [List.length_cons, List.length_nil]; push_cast; omega)]

lemma cascade_all_fail_trace (j : ℚ) (m : String) (h : includesStr "429" m = false) :
    (∀ k, k < 15 → (cascadeRun j m k).isLeft = true) ∧
    cascadeRun j m 4 = Sum.inl ⟨0, 0⟩ ∧
    cascadeRun j m 8 = Sum.inl ⟨0, 1⟩ ∧
    cascadeRun j m 12 = Sum.inl ⟨0, 2⟩ ∧
    cascadeRun j m 15 = Sum.inr (failedAfterMsg m) := by
  have e0 : cascadeRun j m 0 = Sum.inl ⟨0, -1⟩ := rfl
  have e1 : cascadeRun j m 1 = Sum.inl ⟨1, -1⟩ := by
    rw [cascadeRun_succ, e0]; exact cascadeStep_retry j m h (by omega) (by omega)
  have e2 : cascadeRun j m 2 = Sum.inl ⟨2, -1⟩ := by
    rw [cascadeRun_succ, e1]; exact cascadeStep_retry j m h (by omega) (by omega)
  have e3 : cascadeRun j m 3 = Sum.inl ⟨3, -1⟩ := by
    rw [cascadeRun_succ, e2]; exact cascadeStep_retry j m h (by omega) (by omega)
  have e4 : cascadeRun j m 4 = Sum.inl ⟨0, 0⟩ := by
    rw [cascadeRun_succ, e3]
    have := cascadeStep_advance j m h (l := -1) (by omega)
    simpa using this
  have e5 : cascadeRun j m 5 = Sum.inl ⟨1, 0⟩ := by
    rw [cascadeRun_succ, e4]; exact cascadeStep_retry j m h (by omega) (by omega)
  have e6 : cascadeRun j m 6 = Sum.inl ⟨2, 0⟩ := by
    rw [cascadeRun_succ, e5]; exact cascadeStep_retry j m h (by omega) (by omega)
  have e7 : cascadeRun j m 7 = Sum.inl ⟨3, 0⟩ := by
    rw [cascadeRun_succ, e6]; exact cascadeStep_retry j m h (by omega) (by omega)
  have e8 : cascadeRun j m 8 = Sum.inl ⟨0, 1⟩ := by
    rw [cascadeRun_succ, e7]
    have := cascadeStep_advance j m h (l := 0) (by omega)
    simpa using this
  have e9 : cascadeRun j m 9 = Sum.inl ⟨1, 1⟩ := by
    rw [cascadeRun_succ, e8]; exact cascadeStep_retry j m h (by omega) (by omega)
  have e10 : cascadeRun j m 10 = Sum.inl ⟨2, 1⟩ := by
    rw [cascadeRun_succ, e9]; exact cascadeStep_retry j m h (by omega) (by omega)
  have e11 : cascadeRun j m 11 = Sum.inl ⟨3, 1⟩ := by
    rw [cascadeRun_succ, e10]; exact cascadeStep_retry j m h (by omega) (by omega)
  have e12 : cascadeRun j m 12 = Sum.inl ⟨0, 2⟩ := by
    rw [cascadeRun_succ, e11]
    have := cascadeStep_advance j m h (l := 1) (by omega)
    simpa using this
  have e13 : cascadeRun j m 13 = Sum.inl ⟨1, 2⟩ := by
    rw [cascadeRun_succ, e12]; exact cascadeStep_retry j m h (by omega) (by omega)
  have e14 : cascadeRun j m 14 = Sum.inl ⟨2, 2⟩ := by
    rw [cascadeRun_succ, e13]; exact cascadeStep_retry j m h (by omega) (by omega)
  have e15 : cascadeRun j m 15 = Sum.inr (failedAfterMsg m) := by
    rw [cascadeRun_succ, e14]; exact cascadeStep_exhaust j m h
  refine ⟨?_, e4, e8, e12, e15⟩
  intro k hk
  interval_cases k <;>
    simp [e0, e1, e2, e3, e4, e5, e6, e7, e8, e9, e10, e11, e12, e13, e14]

lemma zipWith_sub_eq_abs (ts : List Int)
    (hs : List.Chain' (fun a b : Int => b ≤ a) ts) :
    List.zipWith (fun a b => a - b) ts ts.tail =
      List.zipWith (fun a b => |a - b|) ts ts.tail := by
  induction ts with
  | nil => rfl
  | cons a t ih =>
    cases t with
    | nil => rfl
    | cons b t' =>
      rw [List.chain'_cons] at hs
      have h1 : a - b = |a - b| := (abs_of_nonneg (by omega)).symm
      simpa [List.zipWith] using ⟨h1, ih hs.2⟩

lemma includesStr_append_right (p m : String) : includesStr m (p ++ m) = true := by
  unfold includesStr
  rw [decide_eq_true_iff, String.data_append]
  exact (List.suffix_append p.data m.data).isInfix

lemma includesStr_append_left {sub p : String} (h : includesStr sub p = true)
    (m : String) : includesStr sub (p ++ m) = true := by
  unfold includesStr at h ⊢
  rw [decide_eq_true_iff] at h ⊢
  rw [String.data_append]
  exact h.trans (List.prefix_append p.data m.data).isInfix

/-! ## Claims -/

/-- C1, counterexample.  The claim says an always-failing call performs
exactly `3 * maxRetries = 9` physical attempts and terminates Exhausted
after the ninth.  In the code, after 9 failed attempts the cascade is
still running: it sits on fallback tier 1 with `retryCount = 1`, because
each non-final tier absorbs `maxRetries + 1 = 4` failing attempts before
the tier transition, and the default configuration has three fallback
models, not two. -/
theorem c1_counterexample :
    cascadeRun 0 alwaysFailMsg 9 = Sum.inl ⟨1, 1⟩ := by decide

/-- C1, amended.  For the default configuration and a call failing with
the same non-rate-limit error on every attempt, the cascade performs
exactly 15 physical attempts — 4 on the primary and on fallback tiers 0
and 1 (the failing attempt with `retryCount = maxRetries` happens on the
old tier before the transition), and 3 on the final tier 2 — transitioning
`Primary -> FallbackTier(0) -> FallbackTier(1) -> FallbackTier(2) ->
Exhausted` with no early termination, and ends with the terminal
`failedAfterMsg` failure thrown by the `retryCount >= maxRetries` check. -/
theorem c1_always_fail_cascade (jitter : ℚ) (errMsg : String)
    (h : includesStr "429" errMsg = false) :
    (∀ k, k < 15 → (cascadeRun jitter errMsg k).isLeft = true) ∧
    cascadeRun jitter errMsg 4 = Sum.inl ⟨0, 0⟩ ∧
    cascadeRun jitter errMsg 8 = Sum.inl ⟨0, 1⟩ ∧
    cascadeRun jitter errMsg 12 = Sum.inl ⟨0, 2⟩ ∧
    cascadeRun jitter errMsg 15 = Sum.inr (failedAfterMsg errMsg) :=
  cascade_all_fail_trace jitter errMsg h

/-- C1, witness: the amended trace at jitter 0 and a concrete 500-error. -/
theorem c1_witness :
    includesStr "429" alwaysFailMsg = false ∧
    ((∀ k, k < 15 → (cascadeRun 0 alwaysFailMsg k).isLeft = true) ∧
     cascadeRun 0 alwaysFailMsg 4 = Sum.inl ⟨0, 0⟩ ∧
     cascadeRun 0 alwaysFailMsg 8 = Sum.inl ⟨0, 1⟩ ∧
     cascadeRun 0 alwaysFailMsg 12 = Sum.inl ⟨0, 2⟩ ∧
     cascadeRun 0 alwaysFailMsg 15 = Sum.inr (failedAfterMsg alwaysFailMsg)) :=
  ⟨by decide, c1_always_fail_cascade 0 alwaysFailMsg (by decide)⟩

/-- C2.  The specification requires that a valid multi-frame stream split
at an arbitrary mid-frame byte offset and fed as two chunks decode to the
same transcript as the unsplit stream, and explicitly mandates buffering
the trailing partial line of a chunk.  The code has no such buffering
(line 1227 re-splits each chunk in isolation): the frame `sseFrame`
decodes to `"Hello"` as one chunk, but split after byte 20 both halves
fail to parse and the transcript is empty — the delta is silently
dropped. -/
theorem c2_split_midframe_drops_text :
    sseFrameA ++ sseFrameB = sseFrame ∧
    decodeChunks [sseFrame] = "Hello" ∧
    decodeChunks [sseFrameA, sseFrameB] = "" := by
  refine ⟨rfl, rfl, rfl⟩

/-- C3, counterexample.  The claim says a retained count equal to
`rateLimitPerWindow` (20) still admits the call.  In the code
`canMakeRequest` compares with strict `<` (line 98): with exactly 20
retained timestamps it returns `false`. -/
theorem c3_counterexample :
    (cleanup (List.replicate 20 (0 : Int)) 0).length ≤ API_CONFIG.rateLimitPerMinute ∧
    canMakeRequest (List.replicate 20 (0 : Int)) 0 = false := by decide

/-- C3, amended.  After the purge performed by `canMakeRequest`, the call
is admitted if and only if the retained count is strictly below
`rateLimitPerMinute`; a count exactly equal to the limit is rejected. -/
theorem c3_admission_iff (requests : List Int) (now : Int) :
    canMakeRequest requests now = true ↔
      (cleanup requests now).length < API_CONFIG.rateLimitPerMinute := by
  simp [canMakeRequest]

/-- C4.  On a failed attempt whose error message contains `429`, the
cascade controller waits `5000 + getRetryDelay retryCount`, never invokes
the fallback factory, and — when the loop continues — the next state has
the same `fallbackLevel` and `retryCount + 1`.  Consequently, on a tier
that is not the final one, a target failing with 429 on every attempt is
retried on that same tier forever: after any number `n` of such failures
the loop is still running with `fallbackLevel` unchanged. -/
theorem c4_rate_limit_never_escalates (jitter : ℚ) (s : CascadeState) (m : String)
    (h : includesStr "429" m = true) :
    ((cascadeStep jitter s m).factoryCalledAt = none ∧
     (cascadeStep jitter s m).waited = 5000 + getRetryDelay s.retryCount jitter ∧
     ∀ s', (cascadeStep jitter s m).next = Sum.inl s' →
       s' = ⟨s.retryCount + 1, s.fallbackLevel⟩) ∧
    ∀ (r : Nat) (l : Int), l < (API_CONFIG.fallbackModels.length : Int) - 1 →
      ∀ n : Nat, cascadeRunFrom jitter m ⟨r, l⟩ n = Sum.inl ⟨r + n, l⟩ := by
  constructor
  · simp only [cascadeStep, h, if_true]
    split_ifs with hc
    · exact ⟨rfl, rfl, fun s' hs' => by simp at hs'⟩
    · exact ⟨rfl, rfl, fun s' hs' => by simpa using hs'.symm⟩
  · intro r l hl n
    have hl2 : l < 2 := by
      simpa [API_CONFIG] using hl
    induction n with
    | zero => rfl
    | succ k ih =>
      rw [cascadeRunFrom_succ, ih]
      have := cascadeStep_429 jitter m h (r := r + k) (l := l) (by omega)
      simpa [Nat.add_assoc] using this

/-- C4, witness: a concrete 429 failure on fallback tier 0 keeps the tier,
calls no factory, waits `5000 + getRetryDelay`, and seven consecutive 429
failures leave the loop running on tier 0. -/
theorem c4_witness :
    includesStr "429" rateLimitMsg = true ∧
    ((cascadeStep 0 ⟨1, 0⟩ rateLimitMsg).factoryCalledAt = none ∧
     (cascadeStep 0 ⟨1, 0⟩ rateLimitMsg).waited = 5000 + getRetryDelay 1 0 ∧
     ∀ s', (cascadeStep 0 ⟨1, 0⟩ rateLimitMsg).next = Sum.inl s' → s' = ⟨2, 0⟩) ∧
    cascadeRunFrom 0 rateLimitMsg ⟨0, 0⟩ 7 = Sum.inl ⟨7, 0⟩ :=
  ⟨by decide,
   (c4_rate_limit_never_escalates 0 ⟨1, 0⟩ rateLimitMsg (by decide)).1,
   (c4_rate_limit_never_escalates 0 ⟨1, 0⟩ rateLimitMsg (by decide)).2 0 0 (by decide) 7⟩

/-- C5.  When an always-failing (non-rate-limit) call exhausts every retry
on every fallback tier, the caller receives exactly one terminal failure
(the run is still live for all 15 failing attempts and throws on the
15th): its message `failedAfterMsg` contains the last underlying error
text and the textual renderings of the retry count
(`API_CONFIG.maxRetries`) and of the number of fallback models
(`API_CONFIG.fallbackModels.length`) — both render as `"3"`, which the
message carries in `"Failed after 3 retry attempts on all models: ..."`;
the tier count is not spelled out separately, the message saying
`"all models"`. -/
theorem c5_exhausted_terminal_message (jitter : ℚ) (errMsg : String)
    (h : includesStr "429" errMsg = false) :
    (∀ k, k < 15 → (cascadeRun jitter errMsg k).isLeft = true) ∧
    cascadeRun jitter errMsg 15 = Sum.inr (failedAfterMsg errMsg) ∧
    includesStr errMsg (failedAfterMsg errMsg) = true ∧
    includesStr (toString API_CONFIG.maxRetries) (failedAfterMsg errMsg) = true ∧
    includesStr (toString API_CONFIG.fallbackModels.length) (failedAfterMsg errMsg) = true := by
  obtain ⟨hall, _, _, _, h15⟩ := cascade_all_fail_trace jitter errMsg h
  refine ⟨hall, h15, ?_, ?_, ?_⟩
  · exact includesStr_append_right _ errMsg
  · exact includesStr_append_left (by decide) errMsg
  · exact includesStr_append_left (by decide) errMsg

/-- C5, witness: the terminal failure for a concrete 500-error. -/
theorem c5_witness :
    includesStr "429" alwaysFailMsg = false ∧
    ((∀ k, k < 15 → (cascadeRun 0 alwaysFailMsg k).isLeft = true) ∧
     cascadeRun 0 alwaysFailMsg 15 = Sum.inr (failedAfterMsg alwaysFailMsg) ∧
     includesStr alwaysFailMsg (failedAfterMsg alwaysFailMsg) = true ∧
     includesStr (toString API_CONFIG.maxRetries) (failedAfterMsg alwaysFailMsg) = true ∧
     includesStr (toString API_CONFIG.fallbackModels.length) (failedAfterMsg alwaysFailMsg) = true) :=
  ⟨by decide, c5_exhausted_terminal_message 0 alwaysFailMsg (by decide)⟩

/-- C6, counterexample.  The claim says every retained timestamp satisfies
the strict bound `now - t < rateWindowSize`.  The purge filter keeps
`t >= now - rateLimitResetTime` (line 91), so a timestamp exactly
60000 ms old is retained while `now - t < 60000` fails. -/
theorem c6_counterexample :
    (0 : Int) ∈ cleanup [0] 60000 ∧
    ¬((60000 : Int) - 0 < API_CONFIG.rateLimitResetTime) := by decide

/-- C6, amended.  At every observation of the rate window after its purge
(`addRequest`, `canMakeRequest` and `getWaitTime` all purge through
`cleanup`), every retained timestamp `t` satisfies the non-strict bound
`now - t <= rateLimitResetTime` (60000 ms by default). -/
theorem c6_retained_age_bounded (requests : List Int) (now : Int) :
    (∀ t ∈ cleanup requests now, now - t ≤ API_CONFIG.rateLimitResetTime) ∧
    (∀ t ∈ addRequest requests now, now - t ≤ API_CONFIG.rateLimitResetTime) := by
  have key : ∀ (l : List Int) (t : Int),
      t ∈ cleanup l now → now - t ≤ API_CONFIG.rateLimitResetTime := by
    intro l t ht
    rw [cleanup, List.mem_filter, decide_eq_true_iff] at ht
    omega
  exact ⟨key requests, fun t ht => key (requests ++ [now]) t ht⟩

/-- C6, witness: a freshly recorded timestamp is retained and within the
window bound. -/
theorem c6_witness :
    (0 : Int) ∈ addRequest [] 0 ∧ (0 : Int) - 0 ≤ API_CONFIG.rateLimitResetTime :=
  ⟨by decide, (c6_retained_age_bounded [] 0).2 0 (by decide)⟩

/-- C7.  Whenever the usage log is within its capacity (the invariant the
empty initial log satisfies), one record operation keeps it within
capacity (100), prepends the new entry at the front, and — when the
insertion would exceed the capacity — the result is exactly the pushed
list with its last element (the oldest, in newest-first order)
removed. -/
theorem c7_log_capacity_eviction (log : List LogEntry) (e : LogEntry)
    (h : log.length ≤ maxLogSize) :
    (logApiCallLog log e).length ≤ maxLogSize ∧
    (logApiCallLog log e).head? = some e ∧
    ((e :: log).length > maxLogSize → logApiCallLog log e = (e :: log).dropLast) := by
  have hz : logApiCallLog log e =
      if (e :: log).length > maxLogSize then (e :: log).dropLast else e :: log := rfl
  rw [hz]
  by_cases hc : (e :: log).length > maxLogSize
  · rw [if_pos hc]
    have hne : log ≠ [] := by
      intro hnil; subst hnil; simp [maxLogSize] at hc
    refine ⟨?_, ?_, fun _ => rfl⟩
    · rw [List.length_dropLast]; simp only [List.length_cons]; omega
    · rw [List.dropLast_cons_of_ne_nil hne]; rfl
  · rw [if_neg hc]
    refine ⟨?_, rfl, fun hcc => absurd hcc hc⟩
    simp only [List.length_cons, gt_iff_lt, not_lt] at hc
    simp only [List.length_cons]
    omega

/-- C7, witness: recording into a full 100-entry log stays at capacity,
keeps the new entry first, and evicts the last entry. -/
theorem c7_witness :
    (List.replicate 100 demoEntry).length ≤ maxLogSize ∧
    ((logApiCallLog (List.replicate 100 demoEntry) demoEntry).length ≤ maxLogSize ∧
     (logApiCallLog (List.replicate 100 demoEntry) demoEntry).head? = some demoEntry ∧
     ((demoEntry :: List.replicate 100 demoEntry).length > maxLogSize →
       logApiCallLog (List.replicate 100 demoEntry) demoEntry =
         (demoEntry :: List.replicate 100 demoEntry).dropLast)) :=
  ⟨by decide, c7_log_capacity_eviction (List.replicate 100 demoEntry) demoEntry (by decide)⟩

/-- C8.  For a usage log whose 20 most recent entries are in newest-first
timestamp order (which `logApiCall`'s prepend discipline maintains): the
high-failure-rate signal fires if and only if there are at least 5 recent
entries and their failure ratio is strictly greater than 7/10, the
rapid-calls signal fires if and only if there are at least 5 recent
entries and the mean absolute gap between consecutive calls is strictly
below 500 ms (so the boundary values 0.7 and 500 ms do not trigger), and
the record operation's resulting log is `logApiCallLog log e` regardless
of the signals — they are advisory and block nothing. -/
theorem c8_anomaly_thresholds (log : List LogEntry) (e : LogEntry)
    (hs : List.Chain' (fun a b : Int => b ≤ a) ((log.take 20).map (·.timestamp))) :
    ((checkForSuspiciousActivity log).1 = true ↔
        5 ≤ (log.take 20).length ∧
          (7 : ℚ) / 10 <
            (((log.take 20).filter (fun c => !c.success)).length : ℚ) /
              ((log.take 20).length : ℚ)) ∧
    ((checkForSuspiciousActivity log).2 = true ↔
        5 ≤ (log.take 20).length ∧ meanAbsGap (log.take 20) < 500) ∧
    (logApiCall log e).1 = logApiCallLog log e := by
  refine ⟨?_, ?_, rfl⟩
  · have h07 : (0.7 : ℚ) = 7 / 10 := by norm_num
    simp only [checkForSuspiciousActivity, Bool.and_eq_true, decide_eq_true_iff, h07,
      gt_iff_lt]
  · simp only [checkForSuspiciousActivity, meanAbsGap, Bool.and_eq_true, decide_eq_true_iff]
    rw [zipWith_sub_eq_abs _ hs]

/-- C8, witness: on a five-entry log with four failures (ratio 0.8) and a
1000 ms cadence the theorem's characterisation applies. -/
theorem c8_witness :
    List.Chain' (fun a b : Int => b ≤ a) ((c8DemoLog.take 20).map (·.timestamp)) ∧
    (((checkForSuspiciousActivity c8DemoLog).1 = true ↔
        5 ≤ (c8DemoLog.take 20).length ∧
          (7 : ℚ) / 10 <
            (((c8DemoLog.take 20).filter (fun c => !c.success)).length : ℚ) /
              ((c8DemoLog.take 20).length : ℚ)) ∧
     ((checkForSuspiciousActivity c8DemoLog).2 = true ↔
        5 ≤ (c8DemoLog.take 20).length ∧ meanAbsGap (c8DemoLog.take 20) < 500) ∧
     (logApiCall c8DemoLog demoEntry).1 = logApiCallLog c8DemoLog demoEntry) :=
  ⟨by simp [c8DemoLog, List.chain'_cons],
   c8_anomaly_thresholds c8DemoLog demoEntry (by simp [c8DemoLog, List.chain'_cons])⟩

/-- C9, counterexample.  The claim says a `[DONE]` frame ends the stream.
In the code the `[DONE]` line is merely `continue`d past (line 1232): a
content frame arriving after `[DONE]` still contributes, so the transcript
is `"Hello"`, not the empty transcript a terminated stream would have
produced. -/
theorem c9_counterexample :
    decodeChunks ["data: [DONE]\n" ++ sseFrame] = "Hello" ∧
    decodeChunks ["data: [DONE]\n" ++ sseFrame] ≠ "" := by decide

/-- C9, amended.  A line containing `[DONE]` is skipped, contributing
nothing to the transcript, but decoding continues with the remaining
lines (the stream is not ended); likewise any line whose stripped,
trimmed payload fails to parse is skipped while decoding continues.
Neither event propagates a failure: `decodeChunks` is total and the skip
leaves the accumulator intact. -/
theorem c9_skip_and_continue (acc line : String) (rest : List String)
    (h : includesStr "[DONE]" line = true ∨
      parseDeltaContent
        (trimChars (if "data: ".data.isPrefixOf line.data
          then line.data.drop 6 else line.data)) = none) :
    processLine acc line = acc ∧
    List.foldl processLine acc (line :: rest) = List.foldl processLine acc rest := by
  have hp : processLine acc line = acc := by
    rcases h with h | h
    · simp [processLine, h]
    · simp only [processLine]
      split_ifs with hd hsw he he2
      · rfl
      · rfl
      · rw [if_pos hsw] at h; rw [h]
      · rfl
      · rw [if_neg hsw] at h; rw [h]
  exact ⟨hp, by rw [List.foldl_cons, hp]⟩

/-- C9, witness: a `[DONE]` line leaves the accumulator unchanged and the
fold continues over the remaining lines. -/
theorem c9_witness :
    includesStr "[DONE]" "data: [DONE]" = true ∧
    processLine "abc" "data: [DONE]" = "abc" ∧
    List.foldl processLine "abc" ["data: [DONE]", "x"] = List.foldl processLine "abc" ["x"] :=
  ⟨by decide,
   (c9_skip_and_continue "abc" "data: [DONE]" ["x"] (Or.inl (by decide))).1,
   (c9_skip_and_continue "abc" "data: [DONE]" ["x"] (Or.inl (by decide))).2⟩

/-- C10, counterexample.  The claim says every log state, including the
empty log, yields a record with all four fields.  The empty log takes the
early return `{ total: 0, success: 0, failure: 0 }` (line 65), which has
no success-rate field. -/
theorem c10_counterexample : (getUsageStats []).successRate.isSome = false := rfl

/-- C10, amended.  `getUsageStats` is a read with no effect on the log (the
embedding is a pure function of it); for every log the returned counts
satisfy `total = success + failure` with `total` the log's length, and the
success-rate field is present exactly for non-empty logs — the empty log's
early return carries only the three counters. -/
theorem c10_stats_fields (log : List LogEntry) :
    (getUsageStats log).total = (getUsageStats log).success + (getUsageStats log).failure ∧
    (getUsageStats log).total = log.length ∧
    ((getUsageStats log).successRate.isSome ↔ log ≠ []) := by
  by_cases hlog : log = []
  · subst hlog
    exact ⟨rfl, rfl, by simp [getUsageStats]⟩
  · have hlen : log.length ≠ 0 := by simpa [List.length_eq_zero] using hlog
    have hle : (log.filter (·.success)).length ≤ log.length :=
      List.length_filter_le _ _
    simp only [getUsageStats, hlen, if_neg, if_false]
    refine ⟨by omega, by trivial, by simp [hlog]⟩

end HealthcareAssistant
